import Mathlib

/-!
# Verification of the data-grid-selector component

A shallow embedding of the selection core of `src/DataGrid.js`: the pure
helpers (`getSelectionBounds`, `isInSelection`, `isValidCell`, `createGrid`),
the region toggle performed by `toggleSelection`, the grid-state operations
(construction, `update`, `reset`) and the drag-gesture state machine
(`startDrag` / `updateDrag` / `endDrag` / `cancelDrag` reached through the
mouse and keyboard handlers, with the 16 ms throttle on the visual
`updateSelection` pass).

Cell coordinates are JS numbers that can be negative (the `{row: -1, col: -1}`
sentinel of `getCellFromPoint`), so they are modelled as `Int`.  The grid is a
`List (List Bool)`; timestamps from `performance.now()` are `Nat` (the clock is
monotone, so `now - lastCall` never underflows in the throttle gate).
-/

/-- A logical cell coordinate, `{row, col}` in the source. -/
structure Cell where
  row : Int
  col : Int
deriving Repr, DecidableEq

/-- The inclusive selection rectangle returned by `getSelectionBounds`. -/
structure Bounds where
  minRow : Int
  maxRow : Int
  minCol : Int
  maxCol : Int
deriving Repr, DecidableEq

/-- Embeds `getSelectionBounds(dragStart, dragEnd)` (DataGrid.js lines 27-32). -/
def getSelectionBounds (dragStart dragEnd : Cell) : Bounds :=
  { minRow := min dragStart.row dragEnd.row
    maxRow := max dragStart.row dragEnd.row
    minCol := min dragStart.col dragEnd.col
    maxCol := max dragStart.col dragEnd.col }

/-- Embeds `isInSelection(row, col, bounds)` (DataGrid.js lines 34-36). -/
def isInSelection (row col : Int) (b : Bounds) : Bool :=
  row ≥ b.minRow && row ≤ b.maxRow && col ≥ b.minCol && col ≤ b.maxCol

/-- Embeds `isValidCell(cell, rows, cols)` (DataGrid.js lines 38-39). -/
def isValidCell (cell : Cell) (rows cols : Nat) : Bool :=
  cell.row ≥ 0 && cell.col ≥ 0 && cell.row < (rows : Int) && cell.col < (cols : Int)

/-- Embeds `createGrid(rows, cols)` (DataGrid.js lines 24-25): an all-false
`rows × cols` matrix. -/
def createGrid (rows cols : Nat) : List (List Bool) :=
  List.replicate rows (List.replicate cols false)

/-- The `generateLabels(length, prefix)` helper of the constructor and of
`update`: `[pre ++ " 1", ..., pre ++ " n"]` (1-indexed). -/
def generateLabels (n : Nat) (pre : String) : List String :=
  (List.range n).map (fun i => pre ++ " " ++ toString (i + 1))

/-- Reading one cell of the matrix at nonnegative indices; out-of-range reads
default to `false` (used only to state theorems, not part of the source). -/
def getCellN (g : List (List Bool)) (i j : Nat) : Bool :=
  (g.getD i []).getD j false

/-- One row of the nested loop of `toggleSelection` (DataGrid.js lines
528-532): flip every entry whose column index lies in the bounds.  `r` is the
row index of this row, `c` the column index of the head. -/
def toggleRowFrom (b : Bounds) (r : Int) : Int → List Bool → List Bool
  | _, [] => []
  | c, v :: rest => (if isInSelection r c b then !v else v) :: toggleRowFrom b r (c + 1) rest

/-- All rows of the nested loop of `toggleSelection`; `r` is the row index of
the head row. -/
def toggleRowsFrom (b : Bounds) : Int → List (List Bool) → List (List Bool)
  | _, [] => []
  | r, row :: rest => toggleRowFrom b r 0 row :: toggleRowsFrom b (r + 1) rest

/-- The grid mutation of `toggleSelection` (DataGrid.js lines 525-535): the
nested `for r = minRow..maxRow, c = minCol..maxCol: grid[r][c] = !grid[r][c]`
loop, rendered as a traversal that flips exactly the cells whose coordinates
satisfy `isInSelection` — equivalent to the loop whenever the bounds lie
within the grid, which `endDrag` guarantees (the session's cells passed
`isValidCell`). -/
def toggleSelection (g : List (List Bool)) (b : Bounds) : List (List Bool) :=
  toggleRowsFrom b 0 g

theorem toggleRowFrom_involutive (b : Bounds) (r : Int) :
    ∀ (c : Int) (row : List Bool), toggleRowFrom b r c (toggleRowFrom b r c row) = row := by
  intro c row
  induction row generalizing c with
  | nil => rfl
  | cons v rest ih =>
    simp only [toggleRowFrom]
    by_cases h : isInSelection r c b
    · simp [h, ih]
    · simp [h, ih]

theorem toggleRowsFrom_involutive (b : Bounds) :
    ∀ (r : Int) (g : List (List Bool)), toggleRowsFrom b r (toggleRowsFrom b r g) = g := by
  intro r g
  induction g generalizing r with
  | nil => rfl
  | cons row rest ih =>
    simp [toggleRowsFrom, toggleRowFrom_involutive, ih]

theorem toggleRowFrom_length (b : Bounds) (r : Int) :
    ∀ (c : Int) (row : List Bool), (toggleRowFrom b r c row).length = row.length := by
  intro c row
  induction row generalizing c with
  | nil => rfl
  | cons v rest ih => simp [toggleRowFrom, ih]

theorem toggleRowsFrom_length (b : Bounds) :
    ∀ (r : Int) (g : List (List Bool)), (toggleRowsFrom b r g).length = g.length := by
  intro r g
  induction g generalizing r with
  | nil => rfl
  | cons row rest ih => simp [toggleRowsFrom, ih]

theorem toggleRowFrom_getD (b : Bounds) (r : Int) :
    ∀ (row : List Bool) (c : Int) (j : Nat), j < row.length →
      (toggleRowFrom b r c row).getD j false =
        (if isInSelection r (c + j) b then !(row.getD j false) else row.getD j false) := by
  intro row
  induction row with
  | nil => intro c j hj; simp at hj
  | cons v rest ih =>
    intro c j hj
    cases j with
    | zero => simp [toggleRowFrom, List.getD]
    | succ k =>
      have hk : k < rest.length := by simpa using hj
      have := ih (c + 1) k hk
      simp only [toggleRowFrom, List.getD_cons_succ]
      rw [this]
      have harith : c + 1 + (k : Int) = c + (k + 1 : Nat) := by push_cast; ring
      rw [harith]

theorem toggleRowsFrom_getD (b : Bounds) :
    ∀ (g : List (List Bool)) (r : Int) (i : Nat), i < g.length →
      (toggleRowsFrom b r g).getD i [] = toggleRowFrom b (r + i) 0 (g.getD i []) := by
  intro g
  induction g with
  | nil => intro r i hi; simp at hi
  | cons row rest ih =>
    intro r i hi
    cases i with
    | zero => simp [toggleRowsFrom, List.getD]
    | succ k =>
      have hk : k < rest.length := by simpa using hi
      have := ih (r + 1) k hk
      simp only [toggleRowsFrom, List.getD_cons_succ]
      rw [this]
      have harith : r + 1 + (k : Int) = r + (k + 1 : Nat) := by push_cast; ring
      rw [harith]

/-- Pointwise description of the committed toggle: inside the grid, a cell is
flipped exactly when its coordinates lie in the bounds. -/
theorem toggleSelection_getCellN (g : List (List Bool)) (b : Bounds) (i j : Nat)
    (hi : i < g.length) (hj : j < (g.getD i []).length) :
    getCellN (toggleSelection g b) i j =
      (if isInSelection i j b then !(getCellN g i j) else getCellN g i j) := by
  unfold getCellN toggleSelection
  rw [toggleRowsFrom_getD b g 0 i hi]
  rw [toggleRowFrom_getD b ((0 : Int) + i) (g.getD i []) 0 j hj]
  norm_num

/-! ## Grid state: construction, `update`, `reset` -/

/-- The grid-owning part of the component: the `this.rows` / `this.cols`
fields and the `this.data` record (DataGrid.js lines 117-127). -/
structure GridState where
  rows : Nat
  cols : Nat
  grid : List (List Bool)
  rowLabels : List String
  colLabels : List String
deriving Repr, DecidableEq

/-- The failure the constructor can raise: reading `data[0].length` when
`data` is the empty array raises a `TypeError` (there is no explicit
validation in the source). -/
inductive ConstructError where
  | typeError
deriving Repr, DecidableEq

/-- The two `throw new Error(...)` sites of `update` (DataGrid.js lines
604-611): "Data must be a 2D array" and "Data dimensions must match current
grid". -/
inductive UpdateError where
  | notA2DArray
  | dimensionMismatch
deriving Repr, DecidableEq

/-- The `DataGrid` constructor's state initialisation (DataGrid.js lines
112-127): `data = options.data || createGrid(5, 5)`, `rows = data.length`,
`cols = data[0].length` (a `TypeError` when `data` is empty — `[]` is truthy
in JS, so a supplied empty array is not replaced by the default), labels from
the options or `generateLabels`. -/
def dataGridConstruct (data? : Option (List (List Bool)))
    (rowLabels? colLabels? : Option (List String)) : Except ConstructError GridState :=
  let data := data?.getD (createGrid 5 5)
  if data.isEmpty then
    .error .typeError
  else
    .ok { rows := data.length
          cols := (data.headD []).length
          grid := data
          rowLabels := rowLabels?.getD (generateLabels data.length "Row")
          colLabels := colLabels?.getD (generateLabels (data.headD []).length "Col") }

/-- Embeds `update(newOptions)` (DataGrid.js lines 602-627), rendered on the state it
touches.  With data supplied: `Array.isArray(data[0])` fails exactly when the
array is empty; then `data.length` and `data[0].length` are compared against
the current `rows` / `cols` and the grid is installed as given (rows past the
first are not inspected).  Both throws precede every assignment, so an error
leaves the state untouched.  Labels default to regenerated sequences only when
a grid was supplied. -/
def update (st : GridState) (data? : Option (List (List Bool)))
    (rowLabels? colLabels? : Option (List String)) : Except UpdateError GridState :=
  match data? with
  | some d =>
    if d.isEmpty then
      .error .notA2DArray
    else if d.length = st.rows ∧ (d.headD []).length = st.cols then
      .ok { st with grid := d
                    rowLabels := rowLabels?.getD (generateLabels st.rows "Row")
                    colLabels := colLabels?.getD (generateLabels st.cols "Col") }
    else
      .error .dimensionMismatch
  | none =>
    .ok { st with rowLabels := rowLabels?.getD st.rowLabels
                  colLabels := colLabels?.getD st.colLabels }

/-- Embeds `reset()` (DataGrid.js lines 629-632): `this.data.grid =
createGrid(this.rows, this.cols)`. -/
def reset (st : GridState) : GridState :=
  { st with grid := createGrid st.rows st.cols }

/-- Rendered from the spec's words, for comparison with `update`: "validates
`newGrid` is rectangular" — every row has the length of the first. -/
def rectangularSpec (g : List (List Bool)) : Bool :=
  g.all (fun row => row.length == (g.headD []).length)

/-! ## The drag-gesture state machine -/

/-- Embeds `createState()` (DataGrid.js lines 14-18). -/
structure DragState where
  isDragging : Bool
  dragStart : Option Cell
  dragEnd : Option Cell
deriving Repr, DecidableEq

/-- The initial state: `createState()`. -/
def createState : DragState :=
  { isDragging := false, dragStart := none, dragEnd := none }

/-- The component state the gesture handlers touch: dimensions, the logical
grid, the drag session, the `lastCall` timestamp captured by the `throttle`
closure around `updateSelection` (DataGrid.js lines 3-12 and 145), and the set
of cells carrying the `data-selecting` visual mark, represented by the bounds
whose member cells are marked (`updateSelection` makes the mark set exactly
the cells satisfying `isInSelection` of the current bounds). -/
structure Component where
  rows : Nat
  cols : Nat
  grid : List (List Bool)
  state : DragState
  lastCall : Nat
  visualBounds : Option Bounds
deriving Repr, DecidableEq

/-- A fresh component around a given grid: `state = createState()`, the
throttle closure's `lastCall = 0`, no cell marked selecting. -/
def mkComponent (rows cols : Nat) (grid : List (List Bool)) : Component :=
  { rows := rows, cols := cols, grid := grid, state := createState,
    lastCall := 0, visualBounds := none }

/-- The bounds `updateSelection` computes from the current session
(DataGrid.js line 569).  The session endpoints are non-null whenever this is
invoked (`startDrag` sets them before the call, `updateDrag` runs only while
dragging); the `getD` defaults are never reached. -/
def boundsOfState (s : DragState) : Bounds :=
  getSelectionBounds (s.dragStart.getD ⟨0, 0⟩) (s.dragEnd.getD ⟨0, 0⟩)

/-- Embeds `throttledUpdateSelection()` (DataGrid.js lines 3-12, 145, 559-588): run
the visual `updateSelection` pass only if at least 16 ms elapsed since the
last accepted call; a dropped call changes nothing.  Only `lastCall` and the
`data-selecting` marks are touched — never the session or the grid. -/
def throttledUpdateSelection (c : Component) (now : Nat) : Component :=
  if now - c.lastCall ≥ 16 then
    { c with lastCall := now, visualBounds := some (boundsOfState c.state) }
  else
    c

/-- Embeds `startDrag(cell)` (DataGrid.js lines 447-452); `now` is the
`performance.now()` the throttle gate reads during the call. -/
def startDrag (c : Component) (cell : Cell) (now : Nat) : Component :=
  throttledUpdateSelection
    { c with state := { isDragging := true, dragStart := some cell, dragEnd := some cell } }
    now

/-- Embeds `updateDrag(cell)` (DataGrid.js lines 454-457): `dragEnd` is set
unconditionally; only the visual pass sits behind the throttle. -/
def updateDrag (c : Component) (cell : Cell) (now : Nat) : Component :=
  throttledUpdateSelection
    { c with state := { c.state with dragEnd := some cell } }
    now

/-- Embeds `resetDrag()` (DataGrid.js lines 476-480). -/
def resetDrag (c : Component) : Component :=
  { c with state := { isDragging := false, dragStart := none, dragEnd := none } }

/-- Embeds `endDrag()` (DataGrid.js lines 459-469).  Returns the successor state and
the payloads of the `dataChange` events dispatched: on a live session the grid
is toggled over the session's bounds, the post-toggle grid is dispatched, the
session is destroyed and the selecting marks cleared; otherwise only
`resetDrag()` runs (and no marks are cleared). -/
def endDrag (c : Component) : Component × List (List (List Bool)) :=
  match c.state.isDragging, c.state.dragStart, c.state.dragEnd with
  | true, some s, some e =>
    let g := toggleSelection c.grid (getSelectionBounds s e)
    (( { resetDrag { c with grid := g } with visualBounds := none } ), [g])
  | _, _, _ => (resetDrag c, [])

/-- Embeds `cancelDrag()` (DataGrid.js lines 471-474): `resetDrag()` then
`clearSelectionVisuals()`; the grid is untouched and nothing is dispatched. -/
def cancelDrag (c : Component) : Component :=
  { resetDrag c with visualBounds := none }

/-- The input events reaching the four gesture handlers: a primary-button
press resolved to a cell, a pointer move resolved to a cell, a release, and
the Escape key.  `now` is the `performance.now()` value the throttle closure
reads while handling the event. -/
inductive Ev where
  | down (cell : Cell) (now : Nat)
  | move (cell : Cell) (now : Nat)
  | up
  | esc
deriving Repr, DecidableEq

/-- One event dispatch: `handleMouseDown` / `handleMouseMove` /
`handleMouseUp` / `handleKeyDown` (DataGrid.js lines 403-431), paired with the
list of `dataChange` payloads emitted while handling it. -/
def step (c : Component) : Ev → Component × List (List (List Bool))
  | .down cell now =>
    if isValidCell cell c.rows c.cols then (startDrag c cell now, []) else (c, [])
  | .move cell now =>
    if c.state.isDragging then
      if isValidCell cell c.rows c.cols then (updateDrag c cell now, []) else (c, [])
    else (c, [])
  | .up => if c.state.isDragging then endDrag c else (c, [])
  | .esc => (cancelDrag c, [])

/-- Run a sequence of events, concatenating the emitted payloads. -/
def run (c : Component) : List Ev → Component × List (List (List Bool))
  | [] => (c, [])
  | e :: rest =>
    let p := step c e
    let q := run p.1 rest
    (q.1, p.2 ++ q.2)

/-- The coordinate `dragEnd` holds after a sequence of move events: each valid
move overwrites it, invalid moves are ignored by `handleMouseMove`. -/
def lastValidEnd (rows cols : Nat) (e : Cell) (moves : List (Cell × Nat)) : Cell :=
  moves.foldl (fun acc m => if isValidCell m.1 rows cols then m.1 else acc) e

/-- Turn a list of (cell, timestamp) move samples into move events. -/
def moveEvents (moves : List (Cell × Nat)) : List Ev :=
  moves.map (fun m => Ev.move m.1 m.2)

/-! ## Helper lemmas -/

@[simp] theorem throttledUpdateSelection_rows (c : Component) (now : Nat) :
    (throttledUpdateSelection c now).rows = c.rows := by
  unfold throttledUpdateSelection; split <;> rfl

@[simp] theorem throttledUpdateSelection_cols (c : Component) (now : Nat) :
    (throttledUpdateSelection c now).cols = c.cols := by
  unfold throttledUpdateSelection; split <;> rfl

@[simp] theorem throttledUpdateSelection_grid (c : Component) (now : Nat) :
    (throttledUpdateSelection c now).grid = c.grid := by
  unfold throttledUpdateSelection; split <;> rfl

@[simp] theorem throttledUpdateSelection_state (c : Component) (now : Nat) :
    (throttledUpdateSelection c now).state = c.state := by
  unfold throttledUpdateSelection; split <;> rfl

@[simp] theorem startDrag_rows (c : Component) (cell : Cell) (now : Nat) :
    (startDrag c cell now).rows = c.rows := by
  unfold startDrag; simp

@[simp] theorem startDrag_cols (c : Component) (cell : Cell) (now : Nat) :
    (startDrag c cell now).cols = c.cols := by
  unfold startDrag; simp

@[simp] theorem startDrag_grid (c : Component) (cell : Cell) (now : Nat) :
    (startDrag c cell now).grid = c.grid := by
  unfold startDrag; simp

@[simp] theorem startDrag_state (c : Component) (cell : Cell) (now : Nat) :
    (startDrag c cell now).state = ⟨true, some cell, some cell⟩ := by
  unfold startDrag; simp

@[simp] theorem updateDrag_rows (c : Component) (cell : Cell) (now : Nat) :
    (updateDrag c cell now).rows = c.rows := by
  unfold updateDrag; simp

@[simp] theorem updateDrag_cols (c : Component) (cell : Cell) (now : Nat) :
    (updateDrag c cell now).cols = c.cols := by
  unfold updateDrag; simp

@[simp] theorem updateDrag_grid (c : Component) (cell : Cell) (now : Nat) :
    (updateDrag c cell now).grid = c.grid := by
  unfold updateDrag; simp

@[simp] theorem updateDrag_state (c : Component) (cell : Cell) (now : Nat) :
    (updateDrag c cell now).state = { c.state with dragEnd := some cell } := by
  unfold updateDrag; simp

/-- Evaluating `endDrag` on a live session: the grid is toggled over the session's
bounds, that grid is the one dispatched, the session is destroyed and the
marks cleared. -/
theorem endDrag_session (c : Component) (s e : Cell)
    (h : c.state = ⟨true, some s, some e⟩) :
    endDrag c =
      ({ c with grid := toggleSelection c.grid (getSelectionBounds s e),
                state := ⟨false, none, none⟩, visualBounds := none },
       [toggleSelection c.grid (getSelectionBounds s e)]) := by
  unfold endDrag resetDrag
  rw [h]

theorem run_cons (c : Component) (e : Ev) (rest : List Ev) :
    run c (e :: rest) =
      ((run (step c e).1 rest).1, (step c e).2 ++ (run (step c e).1 rest).2) := rfl

theorem run_single (c : Component) (e : Ev) : run c [e] = step c e := by
  simp [run]

theorem run_append (l₁ l₂ : List Ev) : ∀ c : Component,
    run c (l₁ ++ l₂) =
      ((run (run c l₁).1 l₂).1, (run c l₁).2 ++ (run (run c l₁).1 l₂).2) := by
  induction l₁ with
  | nil => intro c; simp [run]
  | cons e rest ih => intro c; simp [run, ih]

/-- Move events never change the grid and never emit. -/
theorem run_moves_grid (moves : List (Cell × Nat)) : ∀ c : Component,
    (run c (moveEvents moves)).1.grid = c.grid ∧ (run c (moveEvents moves)).2 = [] := by
  induction moves with
  | nil => intro c; simp [moveEvents, run]
  | cons m rest ih =>
    intro c
    simp only [moveEvents, List.map_cons, run, step]
    by_cases hd : c.state.isDragging
    · by_cases hv : isValidCell m.1 c.rows c.cols
      · simpa [hd, hv, moveEvents] using ih (updateDrag c m.1 m.2)
      · simpa [hd, hv, moveEvents] using ih c
    · simpa [hd, moveEvents] using ih c

/-- Running the move events of a drag: dimensions, grid and `dragStart` are
untouched, nothing is emitted, the machine stays in Dragging, and `dragEnd`
ends at the last valid move's cell. -/
theorem run_moves_spec (moves : List (Cell × Nat)) : ∀ (c : Component) (e : Cell),
    c.state.isDragging = true → c.state.dragEnd = some e →
    (run c (moveEvents moves)).1.rows = c.rows ∧
    (run c (moveEvents moves)).1.cols = c.cols ∧
    (run c (moveEvents moves)).1.grid = c.grid ∧
    (run c (moveEvents moves)).1.state.isDragging = true ∧
    (run c (moveEvents moves)).1.state.dragStart = c.state.dragStart ∧
    (run c (moveEvents moves)).1.state.dragEnd =
      some (lastValidEnd c.rows c.cols e moves) ∧
    (run c (moveEvents moves)).2 = [] := by
  induction moves with
  | nil =>
    intro c e hd he
    simp [moveEvents, run, lastValidEnd, he, hd]
  | cons m rest ih =>
    intro c e hd he
    simp only [moveEvents, List.map_cons, run, step, hd, if_true]
    by_cases hv : isValidCell m.1 c.rows c.cols
    · have ih' := ih (updateDrag c m.1 m.2) m.1 (by simp [hd]) (by simp)
      simp only [updateDrag_rows, updateDrag_cols, updateDrag_grid,
        updateDrag_state] at ih'
      simpa [hv, moveEvents, lastValidEnd] using ih'
    · have ih' := ih c e hd he
      simpa [hv, moveEvents, lastValidEnd] using ih'

theorem getD_replicate {α : Type} (n i : Nat) (x d : α) :
    (List.replicate n x).getD i d = if i < n then x else d := by
  induction n generalizing i with
  | zero => simp [List.getD]
  | succ k ih =>
    cases i with
    | zero => simp [List.replicate, List.getD]
    | succ m => simpa [List.replicate, List.getD] using ih m

/-- When every move is valid, the last valid end is simply the last move's
coordinate. -/
theorem lastValidEnd_all_valid (rows cols : Nat) :
    ∀ (moves : List (Cell × Nat)) (e : Cell),
      moves.all (fun m => isValidCell m.1 rows cols) = true →
      lastValidEnd rows cols e moves = (moves.map Prod.fst).getLastD e := by
  intro moves
  induction moves with
  | nil => intro e _; simp [lastValidEnd]
  | cons m rest ih =>
    intro e hall
    simp only [List.all_cons, Bool.and_eq_true] at hall
    simp only [lastValidEnd, List.foldl_cons, hall.1, if_true, List.map_cons,
      List.getLastD_cons]
    exact ih m.1 hall.2

/-! ## The claims -/

/-- C4: `getSelectionBounds` is symmetric in its two arguments, and on equal
arguments yields the single-cell rectangle. -/
theorem getSelectionBounds_symm_diag (a b : Cell) :
    getSelectionBounds a b = getSelectionBounds b a ∧
    getSelectionBounds a a = ⟨a.row, a.row, a.col, a.col⟩ := by
  refine ⟨?_, ?_⟩
  · simp [getSelectionBounds, min_comm, max_comm]
  · simp [getSelectionBounds]

/-- C2: toggling the identical bounds twice restores every matrix exactly
(the commit is an involution). -/
theorem toggleSelection_involutive (g : List (List Bool)) (b : Bounds) :
    toggleSelection (toggleSelection g b) b = g :=
  toggleRowsFrom_involutive b 0 g

/-- C1: committing a valid drag session (release while dragging, with both
endpoints inside the grid) flips exactly the cells of the inclusive rectangle
spanned by start and end and leaves every other cell unchanged. -/
theorem commit_flips_exactly_bounds (c : Component) (s e : Cell) (i j : Nat)
    (hstate : c.state = ⟨true, some s, some e⟩)
    (hs : isValidCell s c.rows c.cols = true)
    (he : isValidCell e c.rows c.cols = true)
    (hi : i < c.grid.length) (hj : j < (c.grid.getD i []).length) :
    getCellN ((step c .up).1.grid) i j =
      (if isInSelection i j (getSelectionBounds s e) then !(getCellN c.grid i j)
       else getCellN c.grid i j) := by
  have hd : c.state.isDragging = true := by rw [hstate]
  simp only [step, hd, if_true, endDrag_session c s e hstate]
  exact toggleSelection_getCellN c.grid (getSelectionBounds s e) i j hi hj

/-- Witness for C1: a concrete 2×2 grid, session from (0,0) to (1,0);
cell (0,0) is flipped. -/
theorem commit_flips_exactly_bounds_witness :
    getCellN ((step ⟨2, 2, [[false, true], [false, false]],
        ⟨true, some ⟨0, 0⟩, some ⟨1, 0⟩⟩, 0, none⟩ .up).1.grid) 0 0 =
      (if isInSelection 0 0 (getSelectionBounds ⟨0, 0⟩ ⟨1, 0⟩)
       then !(getCellN [[false, true], [false, false]] 0 0)
       else getCellN [[false, true], [false, false]] 0 0) :=
  commit_flips_exactly_bounds
    ⟨2, 2, [[false, true], [false, false]], ⟨true, some ⟨0, 0⟩, some ⟨1, 0⟩⟩, 0, none⟩
    ⟨0, 0⟩ ⟨1, 0⟩ 0 0 rfl (by decide) (by decide) (by decide) (by decide)

/-- C9: `reset` installs an all-false matrix of the current `rows × cols`
dimensions and leaves the dimensions and both label lists unchanged. -/
theorem reset_zeroes_and_preserves (st : GridState) :
    (reset st).rows = st.rows ∧ (reset st).cols = st.cols ∧
    (reset st).rowLabels = st.rowLabels ∧ (reset st).colLabels = st.colLabels ∧
    (reset st).grid.length = st.rows ∧
    (∀ row ∈ (reset st).grid, row.length = st.cols ∧ ∀ v ∈ row, v = false) := by
  refine ⟨rfl, rfl, rfl, rfl, by simp [reset, createGrid], ?_⟩
  intro row hrow
  have hr : row = List.replicate st.cols false := by
    simpa [reset, createGrid] using List.eq_of_mem_replicate hrow
  subst hr
  exact ⟨by simp, fun v hv => List.eq_of_mem_replicate hv⟩

/-- C8 (counterexample): constructing with the one-row, zero-column matrix
`[[]]` — so `cols = 0 ≤ 0` — succeeds and yields a state, instead of failing
with `InvalidDimension` as the claim requires; no such validation exists in
the constructor. -/
theorem construct_zero_cols_succeeds :
    dataGridConstruct (some [[]]) none none =
      Except.ok ⟨1, 0, [[]], ["Row 1"], []⟩ := by
  rfl

/-- C8 (amended): `createGrid rows cols` is the all-false `rows × cols`
matrix; construction without data yields the default 5×5 all-false state with
1-indexed labels `"Row i"` / `"Col i"`; and no dimension validation is
performed — constructing with a zero-column matrix succeeds rather than
raising `InvalidDimension`. -/
theorem construct_default_no_validation :
    (∀ rows cols i j, getCellN (createGrid rows cols) i j = false) ∧
    (∀ rows cols, (createGrid rows cols).length = rows ∧
       ∀ row ∈ createGrid rows cols, row.length = cols) ∧
    generateLabels 5 "Row" = ["Row 1", "Row 2", "Row 3", "Row 4", "Row 5"] ∧
    generateLabels 5 "Col" = ["Col 1", "Col 2", "Col 3", "Col 4", "Col 5"] ∧
    dataGridConstruct none none none =
      Except.ok ⟨5, 5, createGrid 5 5, generateLabels 5 "Row", generateLabels 5 "Col"⟩ ∧
    (dataGridConstruct (some [[]]) none none).isOk = true := by
  refine ⟨?_, ?_, by decide, by decide, by rfl, by decide⟩
  · intro rows cols i j
    unfold getCellN createGrid
    rw [getD_replicate]
    by_cases h : i < rows
    · simp [h, getD_replicate]
    · simp [h, List.getD]
  · intro rows cols
    refine ⟨by simp [createGrid], ?_⟩
    intro row hrow
    have := List.eq_of_mem_replicate (by simpa [createGrid] using hrow)
    simp [this]

/-- The explicitly ragged matrix used against C3: the first row matches a 2×2
grid, the second row is short. -/
def raggedData : List (List Bool) := [[true, true], [true]]

/-- C3 (counterexample): `update` accepts a non-rectangular matrix whose
outer length and first-row length match the current 2×2 dimensions — no
`DimensionMismatch` is raised and the ragged grid is installed, refuting the
claimed rectangularity validation. -/
theorem update_accepts_ragged :
    rectangularSpec raggedData = false ∧
    update ⟨2, 2, [[false, false], [false, false]], ["Row 1", "Row 2"], ["Col 1", "Col 2"]⟩
        (some raggedData) none none =
      Except.ok ⟨2, 2, raggedData, ["Row 1", "Row 2"], ["Col 1", "Col 2"]⟩ := by
  exact ⟨by decide, by rfl⟩

/-- C3 (amended): for a nonempty supplied matrix, `update` raises
`DimensionMismatch` exactly when the outer row count or the **first** row's
length disagrees with the current dimensions (rows beyond the first are never
inspected), and on success installs the matrix as given, keeping `rows` and
`cols` — an error is raised before any assignment, so the state is untouched
on failure. -/
theorem update_checks_outer_and_first_row (st : GridState) (d : List (List Bool))
    (rowLabels? colLabels? : Option (List String)) (hne : ¬ d.isEmpty = true) :
    (update st (some d) rowLabels? colLabels? = Except.error .dimensionMismatch ↔
       ¬(d.length = st.rows ∧ (d.headD []).length = st.cols)) ∧
    (∀ st', update st (some d) rowLabels? colLabels? = Except.ok st' →
       st'.grid = d ∧ st'.rows = st.rows ∧ st'.cols = st.cols ∧
       st'.rowLabels = rowLabels?.getD (generateLabels st.rows "Row") ∧
       st'.colLabels = colLabels?.getD (generateLabels st.cols "Col")) := by
  unfold update
  by_cases hdim : d.length = st.rows ∧ (d.headD []).length = st.cols
  · simp only [hne, if_false, hdim, if_true]
    refine ⟨by simp [hdim], ?_⟩
    intro st' hok
    have := Except.ok.inj hok
    subst this
    simp
  · simp only [hne, if_false, hdim, if_true]
    refine ⟨by simp [hdim], ?_⟩
    intro st' hok
    simp at hok

theorem step_down_grid (c : Component) (cell : Cell) (t : Nat) :
    (step c (Ev.down cell t)).1.grid = c.grid := by
  simp only [step]
  by_cases h : isValidCell cell c.rows c.cols <;> simp [h]

theorem step_down_emits_nothing (c : Component) (cell : Cell) (t : Nat) :
    (step c (Ev.down cell t)).2 = [] := by
  simp only [step]
  by_cases h : isValidCell cell c.rows c.cols <;> simp [h]

/-- C5: press anywhere, move anywhere, then Escape: the controller is back in
Idle with the session destroyed, the matrix equals its pre-drag snapshot, and
no change notification was emitted. -/
theorem cancel_is_noop (c : Component) (cell : Cell) (t : Nat)
    (moves : List (Cell × Nat)) :
    (run c (Ev.down cell t :: (moveEvents moves ++ [Ev.esc]))).1.grid = c.grid ∧
    (run c (Ev.down cell t :: (moveEvents moves ++ [Ev.esc]))).2 = [] ∧
    (run c (Ev.down cell t :: (moveEvents moves ++ [Ev.esc]))).1.state =
      ⟨false, none, none⟩ := by
  have hmoves := run_moves_grid moves (step c (Ev.down cell t)).1
  have hesc : ∀ c₂ : Component, run c₂ [Ev.esc] = (cancelDrag c₂, []) := by
    intro c₂; simp [run, step]
  rw [run_cons, run_append, hesc]
  refine ⟨?_, ?_, ?_⟩
  · simp [cancelDrag, resetDrag, hmoves.1, step_down_grid]
  · simp [step_down_emits_nothing, hmoves.2]
  · simp [cancelDrag, resetDrag]

/-- The full committed gesture, press-through-release: one payload, equal to
the grid toggled over the rectangle from the press cell to the last valid
move's cell; the press and the moves themselves emit nothing. -/
theorem run_gesture_spec (c : Component) (cell : Cell) (t : Nat)
    (moves : List (Cell × Nat))
    (hvalid : isValidCell cell c.rows c.cols = true) :
    (run c (Ev.down cell t :: moveEvents moves)).2 = [] ∧
    (run c (Ev.down cell t :: (moveEvents moves ++ [Ev.up]))).2 =
      [toggleSelection c.grid
        (getSelectionBounds cell (lastValidEnd c.rows c.cols cell moves))] ∧
    (run c (Ev.down cell t :: (moveEvents moves ++ [Ev.up]))).1.grid =
      toggleSelection c.grid
        (getSelectionBounds cell (lastValidEnd c.rows c.cols cell moves)) := by
  have hdown : step c (Ev.down cell t) = (startDrag c cell t, []) := by
    simp [step, hvalid]
  have hspec := run_moves_spec moves (startDrag c cell t) cell
    (by simp) (by simp)
  obtain ⟨hr, hc, hg, hd, hs, he, hev⟩ := hspec
  simp only [startDrag_rows, startDrag_cols, startDrag_grid, startDrag_state] at hr hc hg hd hs he
  have hstate2 : (run (startDrag c cell t) (moveEvents moves)).1.state =
      ⟨true, some cell, some (lastValidEnd c.rows c.cols cell moves)⟩ := by
    rw [show (run (startDrag c cell t) (moveEvents moves)).1.state =
        ⟨(run (startDrag c cell t) (moveEvents moves)).1.state.isDragging,
         (run (startDrag c cell t) (moveEvents moves)).1.state.dragStart,
         (run (startDrag c cell t) (moveEvents moves)).1.state.dragEnd⟩ from rfl,
      hd, hs, he]
  have hup := endDrag_session (run (startDrag c cell t) (moveEvents moves)).1
    cell (lastValidEnd c.rows c.cols cell moves) hstate2
  refine ⟨?_, ?_, ?_⟩
  · rw [run_cons, hdown]
    simp [hev]
  · rw [run_cons, hdown, run_append, run_single]
    simp only [step, hd, if_true, hup, hev, hg]
    simp only [List.nil_append]
  · rw [run_cons, hdown, run_append, run_single]
    simp only [step, hd, if_true, hup, hg]

/-- C6: a committed drag gesture (valid press, any moves, release) emits
exactly one change notification, whose payload is the complete post-toggle
matrix — and it equals the matrix the component then holds; the press and
move events emit nothing. -/
theorem committed_drag_emits_once (c : Component) (cell : Cell) (t : Nat)
    (moves : List (Cell × Nat))
    (hvalid : isValidCell cell c.rows c.cols = true) :
    (run c (Ev.down cell t :: moveEvents moves)).2 = [] ∧
    (run c (Ev.down cell t :: (moveEvents moves ++ [Ev.up]))).2 =
      [(run c (Ev.down cell t :: (moveEvents moves ++ [Ev.up]))).1.grid] ∧
    (run c (Ev.down cell t :: (moveEvents moves ++ [Ev.up]))).1.grid =
      toggleSelection c.grid
        (getSelectionBounds cell (lastValidEnd c.rows c.cols cell moves)) := by
  obtain ⟨h1, h2, h3⟩ := run_gesture_spec c cell t moves hvalid
  exact ⟨h1, by rw [h2, h3], h3⟩

/-- Witness for C6: a 1×1 grid, press at (0,0), no moves, release: one
notification carrying the toggled grid. -/
theorem committed_drag_emits_once_witness :
    (run (mkComponent 1 1 [[false]]) [Ev.down ⟨0, 0⟩ 20]).2 = [] ∧
    (run (mkComponent 1 1 [[false]]) (Ev.down ⟨0, 0⟩ 20 :: (moveEvents [] ++ [Ev.up]))).2 =
      [(run (mkComponent 1 1 [[false]]) (Ev.down ⟨0, 0⟩ 20 :: (moveEvents [] ++ [Ev.up]))).1.grid] ∧
    (run (mkComponent 1 1 [[false]]) (Ev.down ⟨0, 0⟩ 20 :: (moveEvents [] ++ [Ev.up]))).1.grid =
      toggleSelection [[false]]
        (getSelectionBounds ⟨0, 0⟩ (lastValidEnd 1 1 ⟨0, 0⟩ [])) :=
  committed_drag_emits_once (mkComponent 1 1 [[false]]) ⟨0, 0⟩ 20 [] (by decide)

/-- C7: with every move valid, the rectangle committed on release is computed
from the last move's coordinate — the press timestamp and every move
timestamp are absent from the result, so the 16 ms throttle (which gates only
the visual `updateSelection` pass, never the `dragEnd` assignment) cannot
affect the committed bounds. -/
theorem throttle_never_affects_commit (c : Component) (cell : Cell) (t : Nat)
    (moves : List (Cell × Nat))
    (hvalid : isValidCell cell c.rows c.cols = true)
    (hall : moves.all (fun m => isValidCell m.1 c.rows c.cols) = true) :
    (run c (Ev.down cell t :: (moveEvents moves ++ [Ev.up]))).1.grid =
      toggleSelection c.grid
        (getSelectionBounds cell ((moves.map Prod.fst).getLastD cell)) ∧
    (run c (Ev.down cell t :: (moveEvents moves ++ [Ev.up]))).2 =
      [toggleSelection c.grid
        (getSelectionBounds cell ((moves.map Prod.fst).getLastD cell))] := by
  obtain ⟨_, h2, h3⟩ := run_gesture_spec c cell t moves hvalid
  rw [lastValidEnd_all_valid c.rows c.cols moves cell hall] at h2 h3
  exact ⟨h3, h2⟩

/-- Witness for C7: a 2×2 grid, press at (0,0) at time 0, moves to (0,1) at
time 3 (dropped by the throttle) and (1,1) at time 5 (also dropped), release:
the committed rectangle is spanned by (0,0)-(1,1), the last move's cell. -/
theorem throttle_never_affects_commit_witness :
    (run (mkComponent 2 2 [[false, false], [false, false]])
        (Ev.down ⟨0, 0⟩ 0 :: (moveEvents [(⟨0, 1⟩, 3), (⟨1, 1⟩, 5)] ++ [Ev.up]))).1.grid =
      toggleSelection [[false, false], [false, false]]
        (getSelectionBounds ⟨0, 0⟩
          ((([(⟨0, 1⟩, 3), (⟨1, 1⟩, 5)] : List (Cell × Nat)).map Prod.fst).getLastD ⟨0, 0⟩)) ∧
    (run (mkComponent 2 2 [[false, false], [false, false]])
        (Ev.down ⟨0, 0⟩ 0 :: (moveEvents [(⟨0, 1⟩, 3), (⟨1, 1⟩, 5)] ++ [Ev.up]))).2 =
      [toggleSelection [[false, false], [false, false]]
        (getSelectionBounds ⟨0, 0⟩
          ((([(⟨0, 1⟩, 3), (⟨1, 1⟩, 5)] : List (Cell × Nat)).map Prod.fst).getLastD ⟨0, 0⟩))] :=
  throttle_never_affects_commit (mkComponent 2 2 [[false, false], [false, false]])
    ⟨0, 0⟩ 0 [(⟨0, 1⟩, 3), (⟨1, 1⟩, 5)] (by decide) (by decide)

/-- The invariant of claim C10: dragging exactly when both session endpoints
are present. -/
def dragInvariant (s : DragState) : Prop :=
  s.isDragging = true ↔ (s.dragStart ≠ none ∧ s.dragEnd ≠ none)

theorem endDrag_state (c : Component) : (endDrag c).1.state = ⟨false, none, none⟩ := by
  unfold endDrag
  split <;> simp [resetDrag]

theorem step_preserves_dragInvariant (c : Component) (e : Ev)
    (h : dragInvariant c.state) : dragInvariant (step c e).1.state := by
  cases e with
  | down cell now =>
    by_cases hv : isValidCell cell c.rows c.cols
    · simp [step, hv, dragInvariant]
    · simpa [step, hv] using h
  | move cell now =>
    by_cases hd : c.state.isDragging
    · by_cases hv : isValidCell cell c.rows c.cols
      · have hstart : c.state.dragStart ≠ none := (h.mp hd).1
        simp [step, hd, hv, dragInvariant, hstart]
      · simpa [step, hd, hv] using h
    · simpa [step, hd] using h
  | up =>
    by_cases hd : c.state.isDragging
    · simp [step, hd, endDrag_state, dragInvariant]
    · simpa [step, hd] using h
  | esc =>
    simp [step, cancelDrag, resetDrag, dragInvariant]

theorem run_preserves_dragInvariant (evs : List Ev) : ∀ c : Component,
    dragInvariant c.state → dragInvariant (run c evs).1.state := by
  induction evs with
  | nil => intro c h; simpa [run] using h
  | cons e rest ih =>
    intro c h
    simpa [run] using ih (step c e).1 (step_preserves_dragInvariant c e h)

/-- C10: from the initial `createState()` state, every state reachable
through the press / move / release / cancel handlers satisfies: `isDragging`
is true exactly when both `dragStart` and `dragEnd` are non-null. -/
theorem drag_invariant_reachable (rows cols : Nat) (g : List (List Bool))
    (evs : List Ev) :
    dragInvariant ((run (mkComponent rows cols g) evs).1.state) :=
  run_preserves_dragInvariant evs (mkComponent rows cols g)
    (by simp [mkComponent, createState, dragInvariant])

/-- Witness for C3's amended theorem: on a 2×2 state, a 1×1 matrix is
rejected with `DimensionMismatch`. -/
theorem update_checks_outer_and_first_row_witness :
    (update ⟨2, 2, [[false, false], [false, false]], ["Row 1", "Row 2"], ["Col 1", "Col 2"]⟩
        (some [[true]]) none none = Except.error .dimensionMismatch ↔
       ¬(([[true]] : List (List Bool)).length = 2 ∧
         (([[true]] : List (List Bool)).headD []).length = 2)) ∧
    (∀ st', update ⟨2, 2, [[false, false], [false, false]], ["Row 1", "Row 2"], ["Col 1", "Col 2"]⟩
        (some [[true]]) none none = Except.ok st' →
       st'.grid = [[true]] ∧ st'.rows = 2 ∧ st'.cols = 2 ∧
       st'.rowLabels = (none : Option (List String)).getD (generateLabels 2 "Row") ∧
       st'.colLabels = (none : Option (List String)).getD (generateLabels 2 "Col")) :=
  update_checks_outer_and_first_row
    ⟨2, 2, [[false, false], [false, false]], ["Row 1", "Row 2"], ["Col 1", "Col 2"]⟩
    [[true]] none none (by decide)
